import Mathlib

/-!
Shallow embedding of the appointment scheduling and lifecycle engine of the
beyond-speech backend (src/backend/src/routes/appointments.ts, together with
the Joi validation schemas).  Times are modelled as integers (milliseconds
since the epoch, the value of `Date.getTime()`); monetary values as rationals
(idealising JS numbers).  Each route handler's domain logic becomes a pure
function returning `Except` of an error kind.
-/

/-- Lifecycle status of an appointment, mirroring the status enumeration
SCHEDULED, CONFIRMED, IN_PROGRESS, COMPLETED, CANCELLED, NO_SHOW. -/
inductive Status where
  | scheduled
  | confirmed
  | inProgress
  | completed
  | cancelled
  | noShow
  deriving DecidableEq, Repr

/-- The appointment record, restricted to the fields the scheduling engine
reads or writes (id, parties, interval, stored duration in minutes, monetary
snapshot, status, cancellation fields, plus `title` and `notes` as
representatives of the free-form payload fields carried along unchanged). -/
structure Appointment where
  id : Nat
  clientId : Nat
  providerId : Nat
  startTime : Int
  endTime : Int
  duration : Int
  hourlyRate : ℚ
  totalAmount : ℚ
  status : Status
  title : String
  notes : Option String
  cancelledAt : Option Int
  cancellationReason : Option String
  deriving DecidableEq, Repr

/-- Provider directory record as read by the create route:
`providerProfile.findUnique` yields `hourlyRate` (nullable float),
`licenseVerified` and `backgroundCheck`. -/
structure ProviderProfile where
  id : Nat
  userId : Nat
  hourlyRate : Option ℚ
  licenseVerified : Bool
  backgroundCheck : Bool
  deriving DecidableEq, Repr

/-- Error kinds surfaced by the create route (`router.post`), in the order the
code raises them: provider lookup, eligibility, past-booking, 90-day horizon,
conflict (naming the conflicting appointment id). -/
inductive CreateError where
  | providerNotFound
  | providerNotVerified
  | pastBooking
  | bookingTooFarOut
  | schedulingConflict (conflictId : Nat)
  deriving DecidableEq, Repr

/-- Error kinds surfaced by the update route (`router.put`) and the cancel
route (`router.patch :id/cancel`). -/
inductive UpdateError where
  | notFound
  | forbidden
  | illegalTransition (current requested : Status)
  | cannotCancel
  deriving DecidableEq, Repr

/-- Statuses the conflict query scans: `status: in ['SCHEDULED', 'CONFIRMED',
'IN_PROGRESS']`. -/
def statusBlocks (st : Status) : Bool :=
  st = Status.scheduled || st = Status.confirmed || st = Status.inProgress

/-- The conflict condition of the Prisma query in `router.post`: same
provider, blocking status, and
`OR [ startTime in [newStart, newEnd) , endTime in (newStart, newEnd] ]`. -/
def conflictsWith (pid : Nat) (s e : Int) (a : Appointment) : Bool :=
  a.providerId = pid && statusBlocks a.status &&
    ((s ≤ a.startTime && a.startTime < e) || (a.endTime > s && a.endTime ≤ e))

/-- `prisma.appointment.findFirst` over the conflict condition. -/
def conflictingAppointment (db : List Appointment) (pid : Nat) (s e : Int) :
    Option Appointment :=
  db.find? (conflictsWith pid s e)

/-- JavaScript `Math.round`: nearest integer, ties toward positive infinity,
i.e. the floor of `q + 1/2`.  Written with integer Euclidean division (which
is floor division for a positive divisor) so that it evaluates by kernel
reduction; `jsRound_eq_floor` below proves the floor characterisation. -/
def jsRound (q : ℚ) : Int :=
  (2 * q.num + (q.den : Int)) / (2 * (q.den : Int))

theorem jsRound_eq_floor (q : ℚ) : jsRound q = ⌊q + 1 / 2⌋ := by
  have hden : (q.den : ℚ) ≠ 0 := by
    exact_mod_cast q.den_nz
  have h : q + 1 / 2 = ((2 * q.num + (q.den : Int) : Int) : ℚ) / ((2 * q.den : ℕ) : ℚ) := by
    conv_lhs => rw [← Rat.num_div_den q]
    push_cast
    field_simp
    ring
  rw [h, Rat.floor_intCast_div_natCast, jsRound]
  push_cast
  rfl

/-- The booking horizon, `addDays(new Date(), 90)`, as milliseconds. -/
def horizonMs : Int := 90 * 24 * 60 * 60 * 1000

/-- The create route (`router.post` in appointments.ts), after body
validation: provider lookup, eligibility check, `isBefore(startTime, now)`,
`isAfter(startTime, addDays(now, 90))`, conflict query, then
`duration = Math.round((end - start) / 60000)`,
`hourlyRate = provider.hourlyRate || 0`,
`totalAmount = hourlyRate * duration / 60`, persisted with status
SCHEDULED.  Neither the route nor the `createAppointment` Joi schema compares
`endTime` with `startTime`. -/
def createAppointment (provider? : Option ProviderProfile) (db : List Appointment)
    (now : Int) (clientId pid : Nat) (title : String) (s e : Int) (newId : Nat) :
    Except CreateError Appointment :=
  match provider? with
  | none => .error .providerNotFound
  | some provider =>
    if ¬ (provider.licenseVerified && provider.backgroundCheck) then
      .error .providerNotVerified
    else if s < now then
      .error .pastBooking
    else if s > now + horizonMs then
      .error .bookingTooFarOut
    else
      match conflictingAppointment db pid s e with
      | some c => .error (.schedulingConflict c.id)
      | none =>
        let duration : Int := jsRound (((e - s : Int) : ℚ) / 60000)
        let hourlyRate : ℚ := (provider.hourlyRate).getD 0
        let totalAmount : ℚ := hourlyRate * duration / 60
        .ok
          { id := newId
            clientId := clientId
            providerId := pid
            startTime := s
            endTime := e
            duration := duration
            hourlyRate := hourlyRate
            totalAmount := totalAmount
            status := .scheduled
            title := title
            notes := none
            cancelledAt := none
            cancellationReason := none }

/-- The update payload accepted by the `updateAppointment` Joi schema,
restricted to the fields of our `Appointment` model: every field optional,
absent fields left untouched by the Prisma update.  The schema has no
`duration`, `hourlyRate` or `totalAmount` field. -/
structure UpdateData where
  title : Option String
  notes : Option String
  startTime : Option Int
  endTime : Option Int
  status : Option Status
  cancellationReason : Option String
  deriving DecidableEq, Repr

/-- An `UpdateData` with every field absent. -/
def emptyUpdate : UpdateData :=
  { title := none, notes := none, startTime := none, endTime := none,
    status := none, cancellationReason := none }

/-- The `validTransitions` table of `router.put`. -/
def validTransitions (st : Status) : List Status :=
  match st with
  | .scheduled => [.confirmed, .cancelled]
  | .confirmed => [.inProgress, .cancelled]
  | .inProgress => [.completed, .cancelled]
  | .completed => []
  | .cancelled => []
  | .noShow => []

/-- `validTransitions[current]?.includes(requested)`. -/
def statusTransitionAllowed (current requested : Status) : Bool :=
  (validTransitions current).contains requested

/-- The field assignment of the Prisma update in `router.put`: spread the
payload (absent fields untouched), then the date conversions, then
`cancelledAt: new Date()` exactly when the requested status is CANCELLED.
The stored `duration` is never touched. -/
def applyUpdate (a : Appointment) (u : UpdateData) (now : Int) : Appointment :=
  { a with
    title := (u.title).getD a.title
    notes := match u.notes with | some n => some n | none => a.notes
    startTime := (u.startTime).getD a.startTime
    endTime := (u.endTime).getD a.endTime
    status := (u.status).getD a.status
    cancellationReason :=
      match u.cancellationReason with
      | some r => some r
      | none => a.cancellationReason
    cancelledAt := if u.status = some Status.cancelled then some now else a.cancelledAt }

/-- The update route (`router.put`), after the appointment has been found and
the permission check passed: if the payload carries a status, check the
transition table and fail with the error naming current and requested status;
otherwise (or on success) persist `applyUpdate`.  No conflict query and no
slot validation run on this path. -/
def updateAppointment (a : Appointment) (u : UpdateData) (now : Int) :
    Except UpdateError Appointment :=
  match u.status with
  | some requested =>
    if statusTransitionAllowed a.status requested then .ok (applyUpdate a u now)
    else .error (.illegalTransition a.status requested)
  | none => .ok (applyUpdate a u now)

/-- The cancel route (`router.patch :id/cancel`), after lookup and permission
check: refuse when the status is COMPLETED, CANCELLED or NO_SHOW, otherwise
set status CANCELLED, `cancelledAt` and (when a reason is present in the
body) `cancellationReason`. -/
def cancelAppointment (a : Appointment) (reason : Option String) (now : Int) :
    Except UpdateError Appointment :=
  if a.status = Status.completed ∨ a.status = Status.cancelled ∨
      a.status = Status.noShow then
    .error .cannotCancel
  else
    .ok
      { a with
        status := .cancelled
        cancelledAt := some now
        cancellationReason :=
          match reason with
          | some r => some r
          | none => a.cancellationReason }

/-- The spec's data-model invariant: no two appointments of the same provider
with overlapping half-open intervals both hold a blocking status. -/
def noOverlap (db : List Appointment) : Prop :=
  ∀ a ∈ db, ∀ b ∈ db, a.id ≠ b.id → a.providerId = b.providerId →
    statusBlocks a.status = true → statusBlocks b.status = true →
    ¬ (a.startTime < b.endTime ∧ b.startTime < a.endTime)

instance (db : List Appointment) : Decidable (noOverlap db) := by
  unfold noOverlap
  infer_instance

instance {ε α : Type} [DecidableEq ε] [DecidableEq α] : DecidableEq (Except ε α) := fun x y =>
  match x, y with
  | .error e, .error f =>
    if h : e = f then .isTrue (congrArg Except.error h)
    else .isFalse (fun hc => h (Except.error.inj hc))
  | .ok a, .ok b =>
    if h : a = b then .isTrue (congrArg Except.ok h)
    else .isFalse (fun hc => h (Except.ok.inj hc))
  | .error _, .ok _ => .isFalse (fun hc => Except.noConfusion hc)
  | .ok _, .error _ => .isFalse (fun hc => Except.noConfusion hc)

/-! Concrete instances used by the claim theorems. -/

/-- An eligible provider with hourly rate 120. -/
def pEx : ProviderProfile :=
  { id := 1, userId := 10, hourlyRate := some 120, licenseVerified := true,
    backgroundCheck := true }

/-- An eligible provider with hourly rate 100. -/
def pRate100 : ProviderProfile :=
  { id := 1, userId := 10, hourlyRate := some 100, licenseVerified := true,
    backgroundCheck := true }

/-- An eligible provider whose hourly rate is unset. -/
def pNoRate : ProviderProfile :=
  { id := 1, userId := 10, hourlyRate := none, licenseVerified := true,
    backgroundCheck := true }

/-- Existing SCHEDULED appointment of provider 1 over minutes 100 to 200
(milliseconds 6000000 to 12000000). -/
def c1Existing : Appointment :=
  { id := 11, clientId := 3, providerId := 1, startTime := 6000000,
    endTime := 12000000, duration := 100, hourlyRate := 120, totalAmount := 200,
    status := .scheduled, title := "existing", notes := none,
    cancelledAt := none, cancellationReason := none }

/-- The appointment the create route persists for a request over minutes 120
to 160 against the database holding only `c1Existing`. -/
def c1Created : Appointment :=
  { id := 9, clientId := 5, providerId := 1, startTime := 7200000,
    endTime := 9600000, duration := 40, hourlyRate := 120, totalAmount := 80,
    status := .scheduled, title := "session", notes := none,
    cancelledAt := none, cancellationReason := none }

/-- The appointment the create route persists for a request whose end is
thirty minutes before its start. -/
def c3Created : Appointment :=
  { id := 9, clientId := 5, providerId := 1, startTime := 3600000,
    endTime := 1800000, duration := -30, hourlyRate := 120, totalAmount := -60,
    status := .scheduled, title := "backwards", notes := none,
    cancelledAt := none, cancellationReason := none }

/-- First of two back-to-back SCHEDULED appointments of provider 1. -/
def c2A1 : Appointment :=
  { id := 21, clientId := 3, providerId := 1, startTime := 6000000,
    endTime := 12000000, duration := 100, hourlyRate := 120, totalAmount := 200,
    status := .scheduled, title := "first", notes := none,
    cancelledAt := none, cancellationReason := none }

/-- Second of two back-to-back SCHEDULED appointments of provider 1. -/
def c2A2 : Appointment :=
  { id := 22, clientId := 4, providerId := 1, startTime := 12000000,
    endTime := 18000000, duration := 100, hourlyRate := 120, totalAmount := 200,
    status := .scheduled, title := "second", notes := none,
    cancelledAt := none, cancellationReason := none }

/-- Update payload moving an appointment's start back to millisecond 9000000,
into the middle of `c2A1`. -/
def c2U : UpdateData :=
  { emptyUpdate with startTime := some 9000000 }

/-- The result the update route persists for `c2A2` under `c2U`. -/
def c2A2After : Appointment :=
  { c2A2 with startTime := 9000000 }

/-- One-hour SCHEDULED appointment with stored duration 60 minutes. -/
def c5A : Appointment :=
  { id := 31, clientId := 3, providerId := 1, startTime := 0,
    endTime := 3600000, duration := 60, hourlyRate := 120, totalAmount := 120,
    status := .scheduled, title := "hour", notes := none,
    cancelledAt := none, cancellationReason := none }

/-- Update payload extending the end of `c5A` by one hour. -/
def c5U : UpdateData :=
  { emptyUpdate with endTime := some 7200000 }

/-- The result the update route persists for `c5A` under `c5U`. -/
def c5After : Appointment :=
  { c5A with endTime := 7200000 }

/-- The appointment the create route persists for provider rate 100 and a
25-minute slot. -/
def c4Created : Appointment :=
  { id := 7, clientId := 5, providerId := 1, startTime := 0,
    endTime := 1500000, duration := 25, hourlyRate := 100,
    totalAmount := 125 / 3, status := .scheduled, title := "short",
    notes := none, cancelledAt := none, cancellationReason := none }

/-- SCHEDULED appointment with no cancellation fields set. -/
def c9A : Appointment :=
  { id := 41, clientId := 3, providerId := 1, startTime := 6000000,
    endTime := 12000000, duration := 100, hourlyRate := 120, totalAmount := 200,
    status := .scheduled, title := "tocancel", notes := none,
    cancelledAt := none, cancellationReason := none }

/-- Update payload carrying only a requested status of CANCELLED. -/
def c9U : UpdateData :=
  { emptyUpdate with status := some Status.cancelled }

/-- The result the update route persists for `c9A` under `c9U` at time
5000. -/
def c9After : Appointment :=
  { c9A with status := .cancelled, cancelledAt := some 5000 }

/-- C1: the claim says creation reports a conflict iff the intervals overlap
(new.start < existing.end and existing.start < new.end), and in particular
when the existing appointment strictly contains the requested one.  The
code's conflict condition misses strict containment: with `c1Existing`
covering minutes 100 to 200, a request for minutes 120 to 160 overlaps (and
is strictly contained) yet the conflict query matches nothing and the
appointment is persisted, double-booking the provider. -/
theorem create_ignores_containing_appointment :
    c1Existing.providerId = 1 ∧ statusBlocks c1Existing.status = true ∧
    c1Existing.startTime < 7200000 ∧ 9600000 < c1Existing.endTime ∧
    7200000 < c1Existing.endTime ∧ c1Existing.startTime < 9600000 ∧
    conflictsWith 1 7200000 9600000 c1Existing = false ∧
    createAppointment (some pEx) [c1Existing] 0 5 1 "session" 7200000 9600000 9 =
      .ok c1Created := by
  refine ⟨by decide, by decide, by decide, by decide, by decide, by decide,
    by decide, ?_⟩
  norm_num [createAppointment, conflictingAppointment, conflictsWith,
    statusBlocks, horizonMs, jsRound, pEx, c1Existing, c1Created, List.find?]

/-- C2: the claim says every create/update/cancel preserves the no-overlap
invariant, and in particular an update changing startTime or endTime cannot
introduce an overlap.  The update route runs no conflict check: starting from
two back-to-back appointments (invariant holds), moving the second one's
start into the middle of the first succeeds and breaks the invariant. -/
theorem update_can_introduce_overlap :
    noOverlap [c2A1, c2A2] ∧
    updateAppointment c2A2 c2U 0 = .ok c2A2After ∧
    ¬ noOverlap [c2A1, c2A2After] := by
  decide

/-- C3: the claim says a request with endTime ≤ startTime fails with
InvalidInterval and nothing is persisted.  Neither the route nor the Joi
schema compares endTime with startTime: a request whose end is thirty
minutes before its start is accepted and persisted with duration −30 and
totalAmount −60. -/
theorem inverted_interval_accepted :
    createAppointment (some pEx) [] 0 5 1 "backwards" 3600000 1800000 9 =
      .ok c3Created ∧
    c3Created.endTime < c3Created.startTime ∧
    c3Created.duration = -30 ∧ c3Created.totalAmount = -60 := by
  refine ⟨?_, by decide, by decide, by decide⟩
  norm_num [createAppointment, conflictingAppointment, horizonMs, jsRound,
    pEx, c3Created, List.find?]

/-- C5: the claim says the stored duration equals (endTime − startTime) in
minutes after every operation.  The update route never recomputes duration:
extending a one-hour appointment to two hours leaves duration at 60 while the
interval is 120 minutes. -/
theorem update_leaves_duration_stale :
    updateAppointment c5A c5U 0 = .ok c5After ∧
    c5After.duration = 60 ∧
    (c5After.endTime - c5After.startTime) / 60000 = 120 ∧
    c5After.duration ≠ (c5After.endTime - c5After.startTime) / 60000 := by
  decide

/-- C4 counterexample: the claim says the persisted totalAmount is rounded to
the smallest currency unit.  With rate 100 and a 25-minute slot the code
persists totalAmount = 100 · 25 / 60 = 125/3 dollars, which is not a whole
number of cents (125/3 · 100 = 12500/3 has denominator 3). -/
theorem totalAmount_fractional_cents_cx :
    createAppointment (some pRate100) [] 0 5 1 "short" 0 1500000 7 =
      .ok c4Created ∧
    c4Created.totalAmount = 125 / 3 ∧
    (c4Created.totalAmount * 100).den ≠ 1 := by
  refine ⟨?_, by norm_num [c4Created], ?_⟩
  · norm_num [createAppointment, conflictingAppointment, horizonMs, jsRound,
      pRate100, c4Created, List.find?]
  · have h : c4Created.totalAmount * 100 = ((12500 : ℤ) : ℚ) / ((3 : ℤ) : ℚ) := by
      norm_num [c4Created]
    rw [h, Ne, Rat.den_div_intCast_eq_one_iff 12500 3 (by norm_num)]
    decide

/-- C9 counterexample: the claim says every transition into Cancelled sets
cancelledAt and cancellationReason together.  The generic update route sets
only cancelledAt: cancelling `c9A` through it with a status-only payload
succeeds and leaves cancellationReason unset. -/
theorem put_cancel_leaves_reason_unset :
    updateAppointment c9A c9U 5000 = .ok c9After ∧
    c9After.status = Status.cancelled ∧
    c9After.cancelledAt = some 5000 ∧
    c9After.cancellationReason = none := by
  decide

/-- C4 amended: for every successful creation the persisted totalAmount
equals hourlyRate × durationMinutes / 60 exactly, with the duration rounded
from the interval by Math.round and the rate defaulted to 0 when unset; no
rounding to a currency unit is applied to the amount itself. -/
theorem totalAmount_exact_formula (p : ProviderProfile) (db : List Appointment)
    (now : Int) (cid pid : Nat) (title : String) (s e : Int) (newId : Nat)
    (a : Appointment)
    (h : createAppointment (some p) db now cid pid title s e newId = .ok a) :
    a.duration = jsRound (((e - s : Int) : ℚ) / 60000) ∧
    a.hourlyRate = (p.hourlyRate).getD 0 ∧
    a.totalAmount = a.hourlyRate * (a.duration : ℚ) / 60 := by
  simp only [createAppointment] at h
  repeat' split at h
  all_goals try exact (Except.noConfusion h)
  have h2 := Except.ok.inj h
  subst h2
  exact ⟨rfl, rfl, rfl⟩

theorem totalAmount_exact_formula_witness :
    c4Created.duration = jsRound (((1500000 - 0 : Int) : ℚ) / 60000) ∧
    c4Created.hourlyRate = (pRate100.hourlyRate).getD 0 ∧
    c4Created.totalAmount = c4Created.hourlyRate * (c4Created.duration : ℚ) / 60 :=
  totalAmount_exact_formula pRate100 [] 0 5 1 "short" 0 1500000 7 c4Created
    (by norm_num [createAppointment, conflictingAppointment, horizonMs, jsRound,
      pRate100, c4Created, List.find?])

/-- C6: a requested status update succeeds exactly when the pair of current
and requested status is in the transition table, in which case the stored
status becomes the requested one; otherwise it fails with the error naming
both statuses (so nothing is persisted), and the table has exactly the six
pairs of the spec, with no pair leaving Completed, Cancelled or NoShow (in
particular a repeated terminal-target request fails both times). -/
theorem update_status_transition (a : Appointment) (u : UpdateData) (t : Status)
    (now : Int) (h : u.status = some t) :
    (statusTransitionAllowed a.status t = true →
      updateAppointment a u now = .ok (applyUpdate a u now) ∧
      (applyUpdate a u now).status = t) ∧
    (statusTransitionAllowed a.status t = false →
      updateAppointment a u now = .error (.illegalTransition a.status t)) ∧
    (statusTransitionAllowed a.status t = true ↔
      (a.status, t) ∈ [(Status.scheduled, Status.confirmed),
        (Status.scheduled, Status.cancelled),
        (Status.confirmed, Status.inProgress),
        (Status.confirmed, Status.cancelled),
        (Status.inProgress, Status.completed),
        (Status.inProgress, Status.cancelled)]) ∧
    (∀ st : Status, st = Status.completed ∨ st = Status.cancelled ∨
      st = Status.noShow → statusTransitionAllowed st t = false) := by
  refine ⟨fun hA => ?_, fun hA => ?_, ?_, ?_⟩
  · constructor
    · simp [updateAppointment, h, hA]
    · simp [applyUpdate, h]
  · simp [updateAppointment, h, hA]
  · cases a.status <;> cases t <;> decide
  · intro st hst
    rcases hst with hst | hst | hst <;> subst hst <;> cases t <;> decide

theorem update_status_transition_witness :
    updateAppointment c9A { emptyUpdate with status := some Status.confirmed } 0 =
      .ok (applyUpdate c9A { emptyUpdate with status := some Status.confirmed } 0) :=
  ((update_status_transition c9A
    { emptyUpdate with status := some Status.confirmed }
    Status.confirmed 0 rfl).1 (by decide)).1

/-- C7: with an eligible provider, a start before now fails with the
past-booking error; a start more than 90 days after now fails with the
horizon error (the past check is applied first, and the two ranges are
disjoint); a start inside the window produces neither of those errors. -/
theorem create_window_checks (p : ProviderProfile) (db : List Appointment)
    (now : Int) (cid pid : Nat) (title : String) (s e : Int) (newId : Nat)
    (hL : p.licenseVerified = true) (hB : p.backgroundCheck = true) :
    (s < now →
      createAppointment (some p) db now cid pid title s e newId =
        .error .pastBooking) ∧
    (s > now + horizonMs →
      createAppointment (some p) db now cid pid title s e newId =
        .error .bookingTooFarOut) ∧
    (now ≤ s → s ≤ now + horizonMs →
      createAppointment (some p) db now cid pid title s e newId ≠
          .error .pastBooking ∧
        createAppointment (some p) db now cid pid title s e newId ≠
          .error .bookingTooFarOut) := by
  refine ⟨fun hP => ?_, fun hF => ?_, fun hP hF => ?_⟩
  · simp [createAppointment, hL, hB, hP]
  · have hP : ¬ s < now := by
      have : (0 : Int) < horizonMs := by norm_num [horizonMs]
      omega
    simp [createAppointment, hL, hB, hP, hF]
  · have hP2 : ¬ s < now := by omega
    have hF2 : ¬ s > now + horizonMs := by omega
    simp only [createAppointment, hL, hB, Bool.and_self, Bool.not_true,
      if_neg, hP2, hF2, if_false]
    constructor <;>
      (cases hc : conflictingAppointment db pid s e <;> simp [hc])

theorem create_window_checks_witness :
    createAppointment (some pEx) [] 100 5 1 "early" 50 3600000 9 =
      .error .pastBooking :=
  (create_window_checks pEx [] 100 5 1 "early" 50 3600000 9 rfl rfl).1
    (by decide)

/-- C8: an existing appointment exactly back-to-back with the requested
interval (its end equals the new start, or its start equals the new end)
never satisfies the conflict condition, and a database holding only such an
appointment yields no conflicting appointment, so the booking is not rejected
for it. -/
theorem back_to_back_never_conflicts (a : Appointment) (pid : Nat) (s e : Int)
    (hwf : a.startTime < a.endTime)
    (h : a.endTime = s ∨ a.startTime = e) :
    conflictsWith pid s e a = false ∧
    conflictingAppointment [a] pid s e = none := by
  have hc : conflictsWith pid s e a = false := by
    simp only [conflictsWith, Bool.and_eq_false_iff, Bool.or_eq_false_iff,
      decide_eq_false_iff_not, not_le, not_lt]
    rcases h with h | h <;> subst h <;> omega
  refine ⟨hc, ?_⟩
  simp [conflictingAppointment, List.find?, hc]

theorem back_to_back_never_conflicts_witness :
    conflictsWith 1 12000000 18000000 c1Existing = false ∧
    conflictingAppointment [c1Existing] 1 12000000 18000000 = none :=
  back_to_back_never_conflicts c1Existing 1 12000000 18000000 (by decide)
    (Or.inl (by decide))

/-- C9 amended: on every transition into Cancelled the cancelledAt timestamp
is set atomically with the status change, and no field other than status,
cancelledAt and cancellationReason changes; the dedicated cancel route also
sets cancellationReason to the supplied reason, while the generic update
route leaves cancellationReason unchanged unless the payload carries one. -/
theorem cancel_transition_effects (a : Appointment) (r : String) (now : Int)
    (h : statusBlocks a.status = true) :
    cancelAppointment a (some r) now =
      .ok { a with status := Status.cancelled, cancelledAt := some now,
                   cancellationReason := some r } ∧
    updateAppointment a { emptyUpdate with status := some Status.cancelled } now =
      .ok { a with status := Status.cancelled, cancelledAt := some now } := by
  cases hst : a.status <;> rw [hst] at h <;> try exact absurd h (by decide)
  all_goals
    refine ⟨?_, ?_⟩ <;>
      simp [cancelAppointment, updateAppointment, statusTransitionAllowed,
        validTransitions, applyUpdate, emptyUpdate, hst]

theorem cancel_transition_effects_witness :
    cancelAppointment c9A (some "sick") 99 =
      .ok { c9A with status := Status.cancelled, cancelledAt := some 99,
                     cancellationReason := some "sick" } ∧
    updateAppointment c9A { emptyUpdate with status := some Status.cancelled } 99 =
      .ok { c9A with status := Status.cancelled, cancelledAt := some 99 } :=
  cancel_transition_effects c9A "sick" 99 (by decide)

/-- C10: an eligible provider whose hourlyRate is unset does not make
creation fail: when the window checks pass and no conflict is found, the
appointment is persisted with hourlyRate 0 and totalAmount 0. -/
theorem create_with_unset_rate (p : ProviderProfile) (db : List Appointment)
    (now : Int) (cid pid : Nat) (title : String) (s e : Int) (newId : Nat)
    (hL : p.licenseVerified = true) (hB : p.backgroundCheck = true)
    (hRate : p.hourlyRate = none)
    (hP : ¬ s < now) (hF : ¬ s > now + horizonMs)
    (hC : conflictingAppointment db pid s e = none) :
    createAppointment (some p) db now cid pid title s e newId =
      .ok { id := newId, clientId := cid, providerId := pid, startTime := s,
            endTime := e, duration := jsRound (((e - s : Int) : ℚ) / 60000),
            hourlyRate := 0, totalAmount := 0, status := .scheduled,
            title := title, notes := none, cancelledAt := none,
            cancellationReason := none } := by
  simp [createAppointment, hL, hB, hP, hF, hC, hRate]

theorem create_with_unset_rate_witness :
    createAppointment (some pNoRate) [] 0 5 1 "free" 0 3600000 9 =
      .ok { id := 9, clientId := 5, providerId := 1, startTime := 0,
            endTime := 3600000,
            duration := jsRound (((3600000 - 0 : Int) : ℚ) / 60000),
            hourlyRate := 0, totalAmount := 0, status := .scheduled,
            title := "free", notes := none, cancelledAt := none,
            cancellationReason := none } :=
  create_with_unset_rate pNoRate [] 0 5 1 "free" 0 3600000 9 rfl rfl rfl
    (by decide) (by decide) (by decide)
